import Mathlib

/-!
Shallow embedding of the ThriveProtocol native reward contract
(`src/test/lib.rs`, the complete variant; `src/src/ThriveProtocolNativeReward.rs`
agrees on every function both files define).

Storage is modelled as an explicit `State` record: the `STATE` item holds the
owner, the `TOKEN_DENOM` item holds the denomination string, and the `BALANCES`
map is a total function `String → Nat` (CosmWasm's `may_load ... unwrap_or(zero)`
never distinguishes an absent entry from a zero entry, so the function view is
observationally faithful).  `Uint128` values are `Nat` with the explicit bound
`2 ^ 128`; `Uint128` addition is checked (it panics instead of wrapping), which
we model as an `overflow` error aborting the command with the state unchanged.
Address validation (`deps.api.addr_validate`) is an external host API; the
embedding is parametric in a predicate `valid : String → Bool`, and a failed
validation is the `invalidAddress` error.  Every handler returns the CosmWasm
result together with the storage as the handler left it, so that partial
mutation before an error is visible (host-level transaction rollback is outside
the contract's own code).
-/

namespace ThriveReward

/-- Balance map: account identifier to `Uint128` value; absent entries read 0. -/
def Balances : Type := String → Nat

/-- A native coin: denomination plus `Uint128` amount. -/
structure Coin where
  denom : String
  amount : Nat
deriving Repr, DecidableEq

/-- `MessageInfo`: transaction sender and attached funds. -/
structure MessageInfo where
  sender : String
  funds : List Coin
deriving Repr, DecidableEq

/-- The whole contract storage: `STATE.owner`, `TOKEN_DENOM`, `BALANCES`. -/
structure State where
  owner : String
  tokenDenom : String
  balances : Balances

/-- `BankMsg::Send`: the settlement instruction emitted by `execute_withdraw`. -/
structure BankSend where
  toAddress : String
  amount : List Coin
deriving Repr, DecidableEq

/-- A CosmWasm event: name plus attribute list. -/
structure Event where
  name : String
  attributes : List (String × String)
deriving Repr, DecidableEq

/-- A CosmWasm `Response`: outgoing messages, attributes, events. -/
structure Response where
  messages : List BankSend
  attributes : List (String × String)
  events : List Event
deriving Repr, DecidableEq

/-- Failure outcomes: `StdError::generic_err` with its message string, a failed
`addr_validate`, or the abort raised by checked `Uint128` addition. -/
inductive ContractError where
  | genericErr (msg : String)
  | invalidAddress
  | overflow
deriving Repr, DecidableEq

/-- First value outside the `Uint128` range. -/
def UINT128_LIMIT : Nat := 2 ^ 128

/-- `BALANCES.save`: point update of the balance map. -/
def setBalance (b : Balances) (a : String) (v : Nat) : Balances :=
  fun x => if x = a then v else b x

/-- The error of `validate_owner` / every owner gate. -/
def unauthorizedErr : ContractError :=
  .genericErr "Unauthorized: Only the owner can call this"

/-- `validate_owner`: pure guard, errs unless the sender is the stored owner. -/
def validateOwner (st : State) (info : MessageInfo) : Except ContractError Unit :=
  if info.sender ≠ st.owner then .error unauthorizedErr else .ok ()

/-- `InstantiateMsg { token_denom }`. -/
structure InstantiateMsg where
  tokenDenom : String
deriving Repr, DecidableEq

/-- `instantiate`: stores the sender as owner and the message's denom verbatim;
starts from an empty balance map. -/
def instantiate (info : MessageInfo) (msg : InstantiateMsg) : State × Response :=
  (⟨info.sender, msg.tokenDenom, fun _ => 0⟩,
   ⟨[], [("action", "instantiate"), ("owner", info.sender),
         ("token_denom", msg.tokenDenom)], []⟩)

/-- The amount `execute_deposit` extracts from the attached funds: the amount of
the first coin whose denom equals the stored denom, zero when none matches. -/
def depositAmount (denom : String) (funds : List Coin) : Nat :=
  ((funds.find? (fun c => c.denom == denom)).map Coin.amount).getD 0

/-- `execute_deposit`. -/
def executeDeposit (st : State) (info : MessageInfo) :
    Except ContractError Response × State :=
  let amount := depositAmount st.tokenDenom info.funds
  if amount = 0 then
    (.error (.genericErr "Deposit amount must be greater than zero"), st)
  else
    let current := st.balances info.sender
    if current + amount < UINT128_LIMIT then
      (.ok ⟨[], [("action", "deposit"), ("sender", info.sender),
                 ("amount", toString amount)], []⟩,
       { st with balances := setBalance st.balances info.sender (current + amount) })
    else (.error .overflow, st)

/-- `reward_single`: validate the recipient, then `BALANCES.update` with a
checked addition.  The reason argument is unused, as in the source. -/
def rewardSingle (valid : String → Bool) (st : State) (recipient : String)
    (amount : Nat) (_reason : String) : Except ContractError State :=
  if valid recipient then
    let current := st.balances recipient
    if current + amount < UINT128_LIMIT then
      .ok { st with balances := setBalance st.balances recipient (current + amount) }
    else .error .overflow
  else .error .invalidAddress

/-- `execute_reward`. -/
def executeReward (valid : String → Bool) (st : State) (info : MessageInfo)
    (recipient : String) (amount : Nat) (reason : String) :
    Except ContractError Response × State :=
  match validateOwner st info with
  | .error e => (.error e, st)
  | .ok _ =>
    match rewardSingle valid st recipient amount reason with
    | .error e => (.error e, st)
    | .ok st2 =>
      (.ok ⟨[], [("action", "reward"), ("recipient", recipient),
                 ("amount", toString amount), ("reason", reason)], []⟩, st2)

/-- The `for` loop of `execute_reward_bulk` over the zipped triples: applies
`reward_single` item by item, stopping at the first error with the store as
mutated so far (no rollback inside the contract). -/
def rewardLoop (valid : String → Bool) (st : State) :
    List ((String × Nat) × String) → Except ContractError Unit × State
  | [] => (.ok (), st)
  | ((r, a), reason) :: rest =>
    match rewardSingle valid st r a reason with
    | .error e => (.error e, st)
    | .ok st2 => rewardLoop valid st2 rest

/-- `execute_reward_bulk`: owner gate, then length check, then the loop. -/
def executeRewardBulk (valid : String → Bool) (st : State) (info : MessageInfo)
    (recipients : List String) (amounts : List Nat) (reasons : List String) :
    Except ContractError Response × State :=
  match validateOwner st info with
  | .error e => (.error e, st)
  | .ok _ =>
    if recipients.length ≠ amounts.length ∨ recipients.length ≠ reasons.length then
      (.error (.genericErr "Array lengths mismatch"), st)
    else
      match rewardLoop valid st ((recipients.zip amounts).zip reasons) with
      | (.error e, st2) => (.error e, st2)
      | (.ok _, st2) => (.ok ⟨[], [("action", "reward_bulk")], []⟩, st2)

/-- `execute_withdraw`. -/
def executeWithdraw (st : State) (info : MessageInfo) (amount : Nat) :
    Except ContractError Response × State :=
  if amount = 0 then
    (.error (.genericErr "Withdraw amount must be greater than zero"), st)
  else
    let current := st.balances info.sender
    if amount > current then
      (.error (.genericErr "Insufficient balance"), st)
    else
      (.ok ⟨[⟨info.sender, [⟨st.tokenDenom, amount⟩]⟩],
            [("action", "withdraw"), ("amount", toString amount)],
            [⟨"Withdrawal", [("sender", info.sender),
                             ("amount", toString amount)]⟩]⟩,
       { st with balances := setBalance st.balances info.sender (current - amount) })

/-- `update_ownership`: owner gate, validate the new owner, replace the owner. -/
def updateOwnership (valid : String → Bool) (st : State) (info : MessageInfo)
    (newOwner : String) : Except ContractError Response × State :=
  match validateOwner st info with
  | .error e => (.error e, st)
  | .ok _ =>
    if valid newOwner then
      (.ok ⟨[], [("action", "update_ownership"), ("new_owner", newOwner)], []⟩,
       { st with owner := newOwner })
    else (.error .invalidAddress, st)

/-- `set_token_denom`: owner gate, then store the new denom — no other check. -/
def setTokenDenom (st : State) (info : MessageInfo) (denom : String) :
    Except ContractError Response × State :=
  match validateOwner st info with
  | .error e => (.error e, st)
  | .ok _ =>
    (.ok ⟨[], [("action", "set_token_denom"), ("denom", denom)], []⟩,
     { st with tokenDenom := denom })

/-- `ExecuteMsg`. -/
inductive ExecuteMsg where
  | deposit
  | reward (recipient : String) (amount : Nat) (reason : String)
  | rewardBulk (recipients : List String) (amounts : List Nat) (reasons : List String)
  | withdraw (amount : Nat)
  | updateOwnership (newOwner : String)
  | setTokenDenom (denom : String)
deriving Repr, DecidableEq

/-- `execute`: the 1:1 dispatch table. -/
def execute (valid : String → Bool) (st : State) (info : MessageInfo) :
    ExecuteMsg → Except ContractError Response × State
  | .deposit => executeDeposit st info
  | .reward r a reason => executeReward valid st info r a reason
  | .rewardBulk rs as ss => executeRewardBulk valid st info rs as ss
  | .withdraw a => executeWithdraw st info a
  | .updateOwnership n => updateOwnership valid st info n
  | .setTokenDenom d => setTokenDenom st info d

/-- Pure unchecked crediting of a list of (recipient, amount) pairs, in order:
what the bulk loop does to the store on the items it reaches, stripped of the
validation and overflow branches.  Used to describe partial application. -/
def creditMany (st : State) : List (String × Nat) → State
  | [] => st
  | (r, a) :: rest =>
    creditMany { st with balances := setBalance st.balances r (st.balances r + a) } rest

/-- A concrete store for witnesses: owner "owner", denom "utoken", no balances. -/
def st0 : State := ⟨"owner", "utoken", fun _ => 0⟩

/-- A concrete address validator for witnesses: everything but "BAD" is valid. -/
def valid0 : String → Bool := fun s => s != "BAD"

/-- The owner as message sender, no funds attached. -/
def infoOwner : MessageInfo := ⟨"owner", []⟩

/-- A non-owner sender, no funds attached. -/
def infoUser : MessageInfo := ⟨"user", []⟩

/-- A store whose "user" balance sits at the top of the `Uint128` range. -/
def stMax : State :=
  ⟨"owner", "utoken", setBalance (fun _ => 0) "user" (UINT128_LIMIT - 1)⟩

/-- "user" depositing one attached coin of 1 utoken. -/
def infoDep1 : MessageInfo := ⟨"user", [⟨"utoken", 1⟩]⟩

/-- "user" depositing one attached coin of 100 utoken. -/
def infoDep100 : MessageInfo := ⟨"user", [⟨"utoken", 100⟩]⟩

/-- A store where "user" holds 200 utoken. -/
def stUser200 : State := ⟨"owner", "utoken", setBalance (fun _ => 0) "user" 200⟩

/-- Claim C10: instantiation sets the owner to the transaction sender, never to
any field of the message, stores the message's token_denom as supplied, and
starts with an empty balance map; the message cannot designate a different
initial owner because the result owner is the sender for every message. -/
theorem instantiate_owner_is_sender (info : MessageInfo) (msg : InstantiateMsg) :
    (instantiate info msg).1.owner = info.sender ∧
    (instantiate info msg).1.tokenDenom = msg.tokenDenom ∧
    (instantiate info msg).1.balances = (fun _ => 0) :=
  ⟨rfl, rfl, rfl⟩

/-- Claim C3: every caller distinct from the stored owner is rejected by each of
Reward, RewardBulk, UpdateOwnership and SetTokenDenom with the Unauthorized
error, and the whole store (owner, denomination, every balance entry) is
returned unchanged. -/
theorem unauthorized_rejects_all (valid : String → Bool) (st : State)
    (info : MessageInfo) (h : info.sender ≠ st.owner)
    (recipient reason newOwner denom : String) (amount : Nat)
    (recipients : List String) (amounts : List Nat) (reasons : List String) :
    execute valid st info (.reward recipient amount reason) = (.error unauthorizedErr, st) ∧
    execute valid st info (.rewardBulk recipients amounts reasons) = (.error unauthorizedErr, st) ∧
    execute valid st info (.updateOwnership newOwner) = (.error unauthorizedErr, st) ∧
    execute valid st info (.setTokenDenom denom) = (.error unauthorizedErr, st) := by
  refine ⟨?_, ?_, ?_, ?_⟩ <;>
    simp [execute, executeReward, executeRewardBulk, ThriveReward.updateOwnership,
          ThriveReward.setTokenDenom, validateOwner, h]

/-- Witness for C3: the non-owner "user" is rejected on a concrete store. -/
theorem unauthorized_rejects_all_witness :
    execute valid0 st0 infoUser (.setTokenDenom "utest") = (.error unauthorizedErr, st0) :=
  (unauthorized_rejects_all valid0 st0 infoUser (by decide) "r" "x" "n" "utest" 1
    ["r"] [1] ["x"]).2.2.2

/-- Claim C6: RewardBulk called by the owner with sequences of unequal lengths
fails with the length-mismatch error before the loop runs, so the store comes
back exactly as it went in. -/
theorem reward_bulk_length_mismatch (valid : String → Bool) (st : State)
    (info : MessageInfo) (h : info.sender = st.owner)
    (recipients : List String) (amounts : List Nat) (reasons : List String)
    (hlen : recipients.length ≠ amounts.length ∨ recipients.length ≠ reasons.length) :
    execute valid st info (.rewardBulk recipients amounts reasons) =
      (.error (.genericErr "Array lengths mismatch"), st) := by
  simp only [execute, executeRewardBulk, validateOwner, h, ne_eq, not_true_eq_false,
    if_false]
  rw [if_pos hlen]

/-- Witness for C6: the repository's own mismatched-length test case. -/
theorem reward_bulk_length_mismatch_witness :
    execute valid0 st0 infoOwner (.rewardBulk ["user"] [100, 50] ["Reason1"]) =
      (.error (.genericErr "Array lengths mismatch"), st0) :=
  reward_bulk_length_mismatch valid0 st0 infoOwner rfl ["user"] [100, 50] ["Reason1"]
    (by decide)

/-- Claim C9 (frame of SetTokenDenom): called by the owner it succeeds and the
resulting store is the old store with only the denomination replaced — every
balance entry and the owner are untouched — and since Deposit and Withdraw read
the denomination from the store at call time, later calls are matched against
the new value while ledger entries keep their old values. -/
theorem set_token_denom_frame (st : State) (info : MessageInfo) (d : String)
    (h : info.sender = st.owner) :
    ThriveReward.setTokenDenom st info d =
      (.ok ⟨[], [("action", "set_token_denom"), ("denom", d)], []⟩,
       { st with tokenDenom := d }) ∧
    ({ st with tokenDenom := d } : State).balances = st.balances ∧
    ({ st with tokenDenom := d } : State).owner = st.owner ∧
    (∀ info2 : MessageInfo,
      executeDeposit { st with tokenDenom := d } info2 =
        executeDeposit ⟨st.owner, d, st.balances⟩ info2) ∧
    (∀ (info2 : MessageInfo) (a : Nat),
      executeWithdraw { st with tokenDenom := d } info2 a =
        executeWithdraw ⟨st.owner, d, st.balances⟩ info2 a) := by
  refine ⟨?_, rfl, rfl, fun _ => rfl, fun _ _ => rfl⟩
  simp [ThriveReward.setTokenDenom, validateOwner, h]

/-- Witness for C9 at a concrete store and denomination. -/
theorem set_token_denom_frame_witness :
    ThriveReward.setTokenDenom st0 infoOwner "utest" =
      (.ok ⟨[], [("action", "set_token_denom"), ("denom", "utest")], []⟩,
       { st0 with tokenDenom := "utest" }) :=
  (set_token_denom_frame st0 infoOwner "utest" rfl).1

/-- Counterexample to claim C2: the code has no emptiness check.  The owner's
SetTokenDenom with the empty string succeeds (no InvalidDenom error) and stores
the empty denomination, and instantiation with an empty token_denom stores the
empty string as well. -/
theorem set_denom_empty_cex :
    (ThriveReward.setTokenDenom st0 infoOwner "").1 =
      .ok ⟨[], [("action", "set_token_denom"), ("denom", "")], []⟩ ∧
    (ThriveReward.setTokenDenom st0 infoOwner "").2.tokenDenom = "" ∧
    (instantiate ⟨"owner", []⟩ ⟨""⟩).1.tokenDenom = "" := by
  refine ⟨?_, ?_, rfl⟩ <;> rfl

/-- Claim C2 as amended: SetTokenDenom by the owner stores the supplied string
verbatim with no validation whatsoever — in particular the empty string is
accepted and stored, so no non-emptiness invariant holds. -/
theorem set_denom_no_validation (st : State) (info : MessageInfo)
    (h : info.sender = st.owner) :
    ThriveReward.setTokenDenom st info "" =
      (.ok ⟨[], [("action", "set_token_denom"), ("denom", "")], []⟩,
       { st with tokenDenom := "" }) := by
  simp [ThriveReward.setTokenDenom, validateOwner, h]

/-- Witness for the amended C2 at a concrete store. -/
theorem set_denom_no_validation_witness :
    ThriveReward.setTokenDenom st0 infoOwner "" =
      (.ok ⟨[], [("action", "set_token_denom"), ("denom", "")], []⟩,
       { st0 with tokenDenom := "" }) :=
  set_denom_no_validation st0 infoOwner rfl

/-- Claim C4: Withdraw fails on a zero amount, fails on an amount above the
caller's balance with the store unchanged, and otherwise debits the caller's
balance by exactly the amount while emitting exactly one bank-send settlement
instruction of that amount in the current denomination to the caller. -/
theorem withdraw_spec (st : State) (info : MessageInfo) (amount : Nat) :
    (amount = 0 → executeWithdraw st info amount =
      (.error (.genericErr "Withdraw amount must be greater than zero"), st)) ∧
    (st.balances info.sender < amount → executeWithdraw st info amount =
      (.error (.genericErr "Insufficient balance"), st)) ∧
    (0 < amount → amount ≤ st.balances info.sender →
      executeWithdraw st info amount =
        (.ok ⟨[⟨info.sender, [⟨st.tokenDenom, amount⟩]⟩],
              [("action", "withdraw"), ("amount", toString amount)],
              [⟨"Withdrawal", [("sender", info.sender),
                               ("amount", toString amount)]⟩]⟩,
         { st with
             balances := setBalance st.balances info.sender (st.balances info.sender - amount) })) := by
  refine ⟨fun h0 => by simp [executeWithdraw, h0], fun hlt => ?_, fun hpos hle => ?_⟩
  · have h0 : ¬ amount = 0 := by omega
    simp [executeWithdraw, h0, hlt]
  · have h0 : ¬ amount = 0 := by omega
    have hngt : ¬ st.balances info.sender < amount := by omega
    simp [executeWithdraw, h0, hngt]

/-- Witness for C4: withdrawing 60 from a balance of 200. -/
theorem withdraw_spec_witness :
    executeWithdraw stUser200 ⟨"user", []⟩ 60 =
      (.ok ⟨[⟨"user", [⟨stUser200.tokenDenom, 60⟩]⟩],
            [("action", "withdraw"), ("amount", toString 60)],
            [⟨"Withdrawal", [("sender", "user"), ("amount", toString 60)]⟩]⟩,
       { stUser200 with
           balances := setBalance stUser200.balances "user" (stUser200.balances "user" - 60) }) :=
  (withdraw_spec stUser200 ⟨"user", []⟩ 60).2.2 (by decide) (by decide)

/-- Counterexample to claim C5 as stated: with a nonzero attached amount of the
current denomination the claim requires the balance to increase by exactly that
amount, but at a balance of 2^128 − 1 a deposit of 1 aborts with the overflow
failure of checked Uint128 addition and the balance stays where it was. -/
theorem deposit_overflow_cex :
    depositAmount stMax.tokenDenom infoDep1.funds = 1 ∧
    (executeDeposit stMax infoDep1).1 = .error .overflow ∧
    (executeDeposit stMax infoDep1).2.balances "user" = UINT128_LIMIT - 1 := by
  refine ⟨rfl, rfl, by decide⟩

/-- Claim C5 as amended: the deposited amount is the amount of the attached coin
matching the current denomination (zero when none matches); a zero amount fails
with the invalid-amount error and changes nothing, and otherwise — provided the
caller's new balance stays below 2^128 — the caller's balance grows by exactly
the deposited amount and no outgoing message is emitted; when the sum reaches
2^128 the command aborts with the overflow failure and the store is unchanged. -/
theorem deposit_spec (st : State) (info : MessageInfo) :
    (depositAmount st.tokenDenom info.funds = 0 →
      executeDeposit st info =
        (.error (.genericErr "Deposit amount must be greater than zero"), st)) ∧
    (depositAmount st.tokenDenom info.funds ≠ 0 →
      st.balances info.sender + depositAmount st.tokenDenom info.funds < UINT128_LIMIT →
      executeDeposit st info =
        (.ok ⟨[], [("action", "deposit"), ("sender", info.sender),
                   ("amount", toString (depositAmount st.tokenDenom info.funds))], []⟩,
         { st with
             balances := setBalance st.balances info.sender (st.balances info.sender + depositAmount st.tokenDenom info.funds) })) ∧
    (depositAmount st.tokenDenom info.funds ≠ 0 →
      UINT128_LIMIT ≤ st.balances info.sender + depositAmount st.tokenDenom info.funds →
      executeDeposit st info = (.error .overflow, st)) := by
  refine ⟨fun h0 => by simp [executeDeposit, h0], fun hne hfit => ?_, fun hne hov => ?_⟩
  · simp [executeDeposit, hne, hfit]
  · have hnlt : ¬ st.balances info.sender + depositAmount st.tokenDenom info.funds
        < UINT128_LIMIT := not_lt.mpr hov
    simp [executeDeposit, hne, hnlt]

/-- Witness for the amended C5: depositing 100 utoken into an empty balance. -/
theorem deposit_spec_witness :
    executeDeposit st0 infoDep100 =
      (.ok ⟨[], [("action", "deposit"), ("sender", "user"),
                 ("amount", toString (depositAmount st0.tokenDenom infoDep100.funds))], []⟩,
       { st0 with
           balances := setBalance st0.balances "user" (st0.balances "user" + depositAmount st0.tokenDenom infoDep100.funds) }) :=
  (deposit_spec st0 infoDep100).2.1 (by decide) (by decide)

/-- Claim C7: all balance arithmetic is checked and unsigned.  An addition in
Deposit, Reward or RewardBulk whose exact result reaches 2^128 aborts with the
overflow failure and leaves the store unchanged rather than wrapping, and the
subtraction in Withdraw is guarded by the insufficient-balance check, so the
debited balance plus the amount reconstructs the old balance exactly (no
underflow ever occurs). -/
theorem checked_arithmetic (valid : String → Bool) (st : State)
    (info : MessageInfo) (r reason : String) (a amount : Nat) :
    (depositAmount st.tokenDenom info.funds ≠ 0 →
      UINT128_LIMIT ≤ st.balances info.sender + depositAmount st.tokenDenom info.funds →
      executeDeposit st info = (.error .overflow, st)) ∧
    (info.sender = st.owner → valid r = true →
      UINT128_LIMIT ≤ st.balances r + a →
      executeReward valid st info r a reason = (.error .overflow, st)) ∧
    (info.sender = st.owner → valid r = true →
      UINT128_LIMIT ≤ st.balances r + a →
      executeRewardBulk valid st info [r] [a] [reason] = (.error .overflow, st)) ∧
    (0 < amount → amount ≤ st.balances info.sender →
      (executeWithdraw st info amount).2.balances info.sender + amount =
        st.balances info.sender) := by
  refine ⟨fun hne hov => ?_, fun h hv hov => ?_, fun h hv hov => ?_, fun hpos hle => ?_⟩
  · have hnlt : ¬ st.balances info.sender + depositAmount st.tokenDenom info.funds
        < UINT128_LIMIT := not_lt.mpr hov
    simp [executeDeposit, hne, hnlt]
  · have hnlt : ¬ st.balances r + a < UINT128_LIMIT := not_lt.mpr hov
    simp [executeReward, validateOwner, rewardSingle, h, hv, hnlt]
  · have hnlt : ¬ st.balances r + a < UINT128_LIMIT := not_lt.mpr hov
    simp [executeRewardBulk, validateOwner, rewardLoop, rewardSingle, h, hv, hnlt]
  · have h0 : ¬ amount = 0 := by omega
    have hngt : ¬ st.balances info.sender < amount := by omega
    simp [executeWithdraw, h0, hngt, setBalance, Nat.sub_add_cancel hle]

/-- Witness for C7: rewarding 1 to a balance of 2^128 − 1 aborts with overflow
and leaves the store untouched. -/
theorem checked_arithmetic_witness :
    executeReward valid0 stMax infoOwner "user" 1 "r" = (.error .overflow, stMax) :=
  (checked_arithmetic valid0 stMax infoOwner "user" "r" 1 1).2.1 (by decide)
    (by decide) (by decide)

/-- Counterexample to claim C8 as stated: the new owner may equal the old one.
A self-transfer by the owner succeeds with a well-formed new owner, yet the
next owner-gated call by the old owner still succeeds instead of failing with
Unauthorized. -/
theorem ownership_self_transfer_cex :
    valid0 "owner" = true ∧
    (ThriveReward.updateOwnership valid0 st0 infoOwner "owner").1 =
      .ok ⟨[], [("action", "update_ownership"), ("new_owner", "owner")], []⟩ ∧
    (ThriveReward.setTokenDenom
        (ThriveReward.updateOwnership valid0 st0 infoOwner "owner").2
        infoOwner "utest").1 =
      .ok ⟨[], [("action", "set_token_denom"), ("denom", "utest")], []⟩ :=
  ⟨rfl, rfl, rfl⟩

/-- Claim C8 as amended: for a well-formed new owner distinct from the current
owner, UpdateOwnership by the current owner atomically replaces the owner;
immediately afterwards each owner-gated operation (Reward, RewardBulk,
UpdateOwnership, SetTokenDenom) fails with Unauthorized for the old owner with
the store unchanged, while the new owner passes the authorization gate. -/
theorem ownership_transfer_spec (valid : String → Bool) (st : State)
    (info info2 : MessageInfo) (newOwner : String)
    (h : info.sender = st.owner) (hv : valid newOwner = true)
    (hne : newOwner ≠ st.owner) (h2 : info2.sender = st.owner)
    (recipient reason denom n2 : String) (amount : Nat)
    (recipients : List String) (amounts : List Nat) (reasons : List String) :
    ThriveReward.updateOwnership valid st info newOwner =
      (.ok ⟨[], [("action", "update_ownership"), ("new_owner", newOwner)], []⟩,
       { st with owner := newOwner }) ∧
    executeReward valid { st with owner := newOwner } info2 recipient amount reason =
      (.error unauthorizedErr, { st with owner := newOwner }) ∧
    executeRewardBulk valid { st with owner := newOwner } info2 recipients amounts reasons =
      (.error unauthorizedErr, { st with owner := newOwner }) ∧
    ThriveReward.updateOwnership valid { st with owner := newOwner } info2 n2 =
      (.error unauthorizedErr, { st with owner := newOwner }) ∧
    ThriveReward.setTokenDenom { st with owner := newOwner } info2 denom =
      (.error unauthorizedErr, { st with owner := newOwner }) ∧
    validateOwner { st with owner := newOwner } ⟨newOwner, []⟩ = .ok () := by
  have hsne : info2.sender ≠ newOwner := by
    rw [h2]; intro e; exact hne e.symm
  refine ⟨?_, ?_, ?_, ?_, ?_, ?_⟩
  · simp [ThriveReward.updateOwnership, validateOwner, h, hv]
  · simp [executeReward, validateOwner, hsne]
  · simp [executeRewardBulk, validateOwner, hsne]
  · simp [ThriveReward.updateOwnership, validateOwner, hsne]
  · simp [ThriveReward.setTokenDenom, validateOwner, hsne]
  · simp [validateOwner]

/-- Witness for the amended C8: transferring from "owner" to "alice". -/
theorem ownership_transfer_spec_witness :
    ThriveReward.updateOwnership valid0 st0 infoOwner "alice" =
      (.ok ⟨[], [("action", "update_ownership"), ("new_owner", "alice")], []⟩,
       { st0 with owner := "alice" }) :=
  (ownership_transfer_spec valid0 st0 infoOwner infoOwner "alice" rfl (by decide)
    (by decide) rfl "r" "x" "d" "n" 1 [] [] []).1

/-- Counterexample to claim C1 as stated: with recipients ["alice", "BAD"] the
batch fails on the malformed second recipient, yet "alice" — validated before
it — has already been credited 10 in the store the handler hands back; the
contract code itself performs no rollback. -/
theorem reward_bulk_partial_cex :
    st0.balances "alice" = 0 ∧
    (executeRewardBulk valid0 st0 infoOwner ["alice", "BAD"] [10, 20] ["r1", "r2"]).1 =
      .error .invalidAddress ∧
    (executeRewardBulk valid0 st0 infoOwner ["alice", "BAD"] [10, 20]
        ["r1", "r2"]).2.balances "alice" = 10 :=
  ⟨rfl, rfl, rfl⟩

/-- After unchecked crediting, any balance has grown by at most the sum of the
credited amounts. -/
theorem creditMany_balance_le (l : List (String × Nat)) :
    ∀ (st : State) (x : String),
      (creditMany st l).balances x ≤ st.balances x + (l.map Prod.snd).sum := by
  induction l with
  | nil => intro st x; simp [creditMany]
  | cons p rest ih =>
    intro st x
    obtain ⟨r, a⟩ := p
    simp only [creditMany, List.map_cons, List.sum_cons]
    have h2 : (setBalance st.balances r (st.balances r + a)) x ≤ st.balances x + a := by
      simp only [setBalance]
      split
      · next hxr => subst hxr; omega
      · omega
    calc (creditMany { st with balances := setBalance st.balances r (st.balances r + a) }
            rest).balances x
        ≤ ({ st with balances := setBalance st.balances r (st.balances r + a) } :
            State).balances x + (rest.map Prod.snd).sum := ih _ x
      _ = (setBalance st.balances r (st.balances r + a)) x + (rest.map Prod.snd).sum := rfl
      _ ≤ st.balances x + (a + (rest.map Prod.snd).sum) := by omega

/-- The bulk loop over items whose recipients are all valid, run in a region
where no addition can overflow, succeeds and performs exactly the unchecked
in-order credits. -/
theorem rewardLoop_all_valid (valid : String → Bool) :
    ∀ (l : List ((String × Nat) × String)) (st : State),
      (∀ p ∈ l, valid p.1.1 = true) →
      (∀ x, st.balances x + (l.map (fun p => p.1.2)).sum < UINT128_LIMIT) →
      rewardLoop valid st l = (.ok (), creditMany st (l.map Prod.fst)) := by
  intro l
  induction l with
  | nil => intro st _ _; rfl
  | cons p rest ih =>
    intro st hval hsmall
    obtain ⟨⟨r, a⟩, reason⟩ := p
    have hv : valid r = true := hval _ (List.mem_cons_self _ _)
    have hfit : st.balances r + a < UINT128_LIMIT := by
      have := hsmall r
      simp only [List.map_cons, List.sum_cons] at this
      omega
    have hstep : ∀ x, (setBalance st.balances r (st.balances r + a)) x ≤ st.balances x + a := by
      intro x
      simp only [setBalance]
      split
      · next hxr => subst hxr; omega
      · omega
    have hsmall2 : ∀ x, (setBalance st.balances r (st.balances r + a)) x
        + (rest.map (fun p => p.1.2)).sum < UINT128_LIMIT := by
      intro x
      have ha := hsmall x
      simp only [List.map_cons, List.sum_cons] at ha
      have hb := hstep x
      omega
    have hval2 : ∀ p ∈ rest, valid p.1.1 = true :=
      fun p hp => hval p (List.mem_cons_of_mem _ hp)
    have hrest := ih { st with balances := setBalance st.balances r (st.balances r + a) }
      hval2 hsmall2
    simp only [rewardLoop, rewardSingle, hv, if_pos hfit, if_true, List.map_cons, creditMany]
    exact hrest

/-- Running the bulk loop over an append: once the first part succeeds, the
loop continues on the second part from the state the first part produced. -/
theorem rewardLoop_append (valid : String → Bool)
    (l2 : List ((String × Nat) × String)) :
    ∀ (l1 : List ((String × Nat) × String)) (st st1 : State),
      rewardLoop valid st l1 = (.ok (), st1) →
      rewardLoop valid st (l1 ++ l2) = rewardLoop valid st1 l2 := by
  intro l1
  induction l1 with
  | nil =>
    intro st st1 h
    simp only [rewardLoop] at h
    cases h
    rfl
  | cons p rest ih =>
    intro st st1 h
    obtain ⟨⟨r, a⟩, reason⟩ := p
    cases hrs : rewardSingle valid st r a reason with
    | error e =>
      simp only [rewardLoop, hrs] at h
      simp at h
    | ok st2 =>
      simp only [rewardLoop, hrs] at h
      simp only [List.cons_append, rewardLoop, hrs]
      exact ih st2 st1 h

/-- Claim C1 as amended: RewardBulk is not all-or-nothing inside the contract
code.  Called by the owner with equal-length batches in which all recipients
before some malformed one are valid (and the credited sums stay in the Uint128
range), the command fails on the malformed recipient, but by then every earlier
recipient has already been credited in the store exactly as single Rewards
would have, in input order; items after the malformed one are not processed.
Zero mutation is only restored by the host discarding the transaction. -/
theorem reward_bulk_not_atomic (valid : String → Bool) (st : State)
    (info : MessageInfo) (h : info.sender = st.owner)
    (pre rest rs rrest : List String) (bad r0 : String)
    (amts arest : List Nat) (a : Nat)
    (hl1 : pre.length = amts.length) (hl2 : pre.length = rs.length)
    (hl3 : rest.length = arest.length) (hl4 : rest.length = rrest.length)
    (hval : ∀ x ∈ pre, valid x = true) (hbad : valid bad = false)
    (hsmall : ∀ x, st.balances x + amts.sum < UINT128_LIMIT) :
    executeRewardBulk valid st info (pre ++ bad :: rest) (amts ++ a :: arest)
        (rs ++ r0 :: rrest) =
      (.error .invalidAddress, creditMany st (pre.zip amts)) := by
  have hlz : (pre.zip amts).length = rs.length := by
    rw [List.length_zip, ← hl1, Nat.min_self]
    exact hl2
  have hz : ((pre ++ bad :: rest).zip (amts ++ a :: arest)).zip (rs ++ r0 :: rrest)
      = ((pre.zip amts).zip rs)
        ++ (((bad, a), r0) :: ((rest.zip arest).zip rrest)) := by
    rw [List.zip_append hl1, List.zip_cons_cons, List.zip_append hlz, List.zip_cons_cons]
  have hmap1 : (((pre.zip amts).zip rs).map Prod.fst) = pre.zip amts :=
    List.map_fst_zip _ _ (le_of_eq hlz)
  have hsum : ((((pre.zip amts).zip rs)).map (fun p => p.1.2)).sum = amts.sum := by
    have e1 : (((pre.zip amts).zip rs)).map (fun p => p.1.2)
        = ((((pre.zip amts).zip rs)).map Prod.fst).map Prod.snd := by
      rw [List.map_map]
      rfl
    rw [e1, hmap1, List.map_snd_zip _ _ (le_of_eq hl1.symm)]
  have hval2 : ∀ p ∈ ((pre.zip amts).zip rs), valid p.1.1 = true := by
    intro p hp
    have hmem1 : p.1 ∈ pre.zip amts := ((List.of_mem_zip hp).1 : _)
    exact hval p.1.1 (List.of_mem_zip hmem1).1
  have hsmall2 : ∀ x, st.balances x
      + ((((pre.zip amts).zip rs)).map (fun p => p.1.2)).sum < UINT128_LIMIT := by
    intro x
    rw [hsum]
    exact hsmall x
  have hpre : rewardLoop valid st ((pre.zip amts).zip rs)
      = (.ok (), creditMany st (pre.zip amts)) := by
    have := rewardLoop_all_valid valid ((pre.zip amts).zip rs) st hval2 hsmall2
    rw [hmap1] at this
    exact this
  have happ := rewardLoop_append valid (((bad, a), r0) :: ((rest.zip arest).zip rrest))
    ((pre.zip amts).zip rs) st (creditMany st (pre.zip amts)) hpre
  have hbadstep : rewardLoop valid (creditMany st (pre.zip amts))
      (((bad, a), r0) :: ((rest.zip arest).zip rrest))
      = (.error .invalidAddress, creditMany st (pre.zip amts)) := by
    simp only [rewardLoop, rewardSingle, hbad]
    rfl
  have hlen : ¬((pre ++ bad :: rest).length ≠ (amts ++ a :: arest).length
      ∨ (pre ++ bad :: rest).length ≠ (rs ++ r0 :: rrest).length) := by
    simp only [List.length_append, List.length_cons, hl1, hl2, hl3, hl4]
    omega
  have hok : validateOwner st info = .ok () := by simp [validateOwner, h]
  simp only [executeRewardBulk, hok]
  rw [if_neg hlen, hz, happ, hbadstep]

/-- Witness for the amended C1: batch ["alice", "BAD"] with amounts [10, 20] by
the owner fails on "BAD" with "alice" already credited 10. -/
theorem reward_bulk_not_atomic_witness :
    executeRewardBulk valid0 st0 infoOwner ["alice", "BAD"] [10, 20] ["r1", "r2"] =
      (.error .invalidAddress, creditMany st0 [("alice", 10)]) :=
  reward_bulk_not_atomic valid0 st0 infoOwner rfl ["alice"] [] ["r1"] [] "BAD" "r2"
    [10] [] 20 rfl rfl rfl rfl (by decide) (by decide)
    (fun x => by simp [st0, UINT128_LIMIT])

end ThriveReward
